import Mathlib

/-!
Shallow embedding of the EcoSphere plant-ecosystem simulation
(src/Main.cpp).  Floating-point values are modelled as rationals,
C++ `int` as `Int`.  The per-frame update `Plant::grow`, the light
model `Plant::calculateLight`, the geometry helpers and the frame
loop of `main` are translated definition by definition.
-/

namespace EcoSphere

/-- Embedding of `clampf(v, a, b) = max(a, min(v, b))` (Main.cpp:11). -/
def clampf (v a b : ℚ) : ℚ := max a (min v b)

/-- Embedding of `safeFloorToInt` (Main.cpp:12). -/
def safeFloorToInt (v : ℚ) : ℤ := ⌊v⌋

/-- Embedding of `overlapAreaXZ` (Main.cpp:14-23): intersection area of two
axis-aligned squares given by centers and half extents in the X/Z plane. -/
def overlapAreaXZ (ax az ah bx bz bh : ℚ) : ℚ :=
  let aMinX := ax - ah; let aMaxX := ax + ah
  let aMinZ := az - ah; let aMaxZ := az + ah
  let bMinX := bx - bh; let bMaxX := bx + bh
  let bMinZ := bz - bh; let bMaxZ := bz + bh
  let ix := max 0 (min aMaxX bMaxX - max aMinX bMinX)
  let iz := max 0 (min aMaxZ bMaxZ - max aMinZ bMinZ)
  ix * iz

/-- Raylib `Vector2`; in `SoilCell` the fields hold grid X and Z. -/
structure Vec2 where
  x : ℚ
  y : ℚ
deriving DecidableEq

/-- Raylib `Vector3`. -/
structure Vec3 where
  x : ℚ
  y : ℚ
  z : ℚ
deriving DecidableEq

/-- Raylib `Color` (r,g,b,a). -/
structure Color where
  r : ℤ
  g : ℤ
  b : ℤ
  a : ℤ
deriving DecidableEq

/-- Embedding of `struct SoilCell` (Main.cpp:26-35).  The randomized
construction is not modelled; cells are arbitrary values of this type. -/
structure SoilCell where
  position : Vec2
  water : ℚ
  nitrogen : ℚ
  phosphorus : ℚ
  potassium : ℚ
deriving DecidableEq

/-- Placeholder cell used by `List.getD`; `Main.cpp` indexes `soil[idx]`
with `idx` always in bounds for a well-formed grid, so the default is
never reached there. -/
def defaultCell : SoilCell := ⟨⟨0, 0⟩, 0, 0, 0, 0⟩

/-- Embedding of `struct Plant` (Main.cpp:38-70). -/
structure Plant where
  id : ℤ
  position : Vec3
  size : ℚ
  color : Color
  growthRate : ℚ
  health : ℚ
  age : ℚ
  maxAge : ℚ
  alive : Bool
  photosyntheticEfficiency : ℚ
  baseMaintenance : ℚ
  maintenancePerSize : ℚ
  adsorptionEfficiency : ℚ
  lastNutrientIntake : ℚ
  lastAreaOccupied : ℚ
deriving DecidableEq

/-- Inclusive integer range `[a..b]`, the iteration space of the C++
`for(int x = a; x <= b; ++x)` loops. -/
def intRange (a b : ℤ) : List ℤ :=
  (List.range (b + 1 - a).toNat).map (fun i => a + Int.ofNat i)

/-- Embedding of `Plant::getOccupiedSoilIndices` (Main.cpp:72-85).
Candidate cell coordinates are enumerated x-outer / z-inner exactly as
the nested loops do, clipped to `[0, gridSize)`, and encoded as
`z * gridSize + x` (returned as `Nat` since kept indices are nonnegative). -/
def Plant.getOccupiedSoilIndices (p : Plant) (gridSize : ℤ) (cellSize : ℚ) : List ℕ :=
  let halfGrid : ℚ := (gridSize : ℚ) * (1/2)
  let minX := safeFloorToInt ((p.position.x - p.size * (1/2) + halfGrid) / cellSize)
  let maxX := safeFloorToInt ((p.position.x + p.size * (1/2) + halfGrid) / cellSize)
  let minZ := safeFloorToInt ((p.position.z - p.size * (1/2) + halfGrid) / cellSize)
  let maxZ := safeFloorToInt ((p.position.z + p.size * (1/2) + halfGrid) / cellSize)
  (intRange minX maxX).flatMap (fun x =>
    (intRange minZ maxZ).filterMap (fun z =>
      if 0 ≤ x ∧ x < gridSize ∧ 0 ≤ z ∧ z < gridSize then
        some (z * gridSize + x).toNat
      else none))

/-- Embedding of `Plant::overlapFractionWithCell` (Main.cpp:87-96).
Note `cell.position.y` holds the grid Z coordinate. -/
def Plant.overlapFractionWithCell (p : Plant) (cell : SoilCell)
    (gridSize : ℤ) (cellSize : ℚ) : ℚ :=
  let halfGrid : ℚ := (gridSize : ℚ) * (1/2)
  let cx := cell.position.x - halfGrid + cellSize * (1/2)
  let cz := cell.position.y - halfGrid + cellSize * (1/2)
  let plantHalf := p.size * (1/2)
  let cellHalf := cellSize * (1/2)
  let overlap := overlapAreaXZ p.position.x p.position.z plantHalf cx cz cellHalf
  clampf (overlap / (cellSize * cellSize)) 0 1

/-- Embedding of `Plant::topY` (Main.cpp:98). -/
def Plant.topY (p : Plant) : ℚ := p.position.y + p.size * (1/2)

/-- Loop body of `Plant::calculateLight` (Main.cpp:103-112): skip the
plant itself, skip non-overlapping plants, and attenuate by a strictly
taller overlapping plant. -/
def lightStep (p : Plant) (light : ℚ) (other : Plant) : ℚ :=
  if other.id = p.id then light
  else
    let overlap := overlapAreaXZ p.position.x p.position.z (p.size * (1/2))
      other.position.x other.position.z (other.size * (1/2))
    if overlap ≤ 0 then light
    else
      let overlapFrac := overlap / (p.size * p.size)
      if other.topY > p.topY then light * (1 - overlapFrac * (1/2)) else light

/-- Embedding of `Plant::calculateLight` (Main.cpp:100-114): a left fold
of `lightStep` over the plant list starting from 1.0, then the final
clamp to [0,1]. -/
def Plant.calculateLight (p : Plant) (allPlants : List Plant) : ℚ :=
  clampf (allPlants.foldl (lightStep p) 1) 0 1

/-- Accumulator of the first loop of `Plant::grow` (Main.cpp:127-139):
the `overlaps` vector, `totalOverlap`, `nutrientSum` and `waterSum`. -/
structure OverlapScan where
  overlaps : List (ℕ × ℚ)
  totalOverlap : ℚ
  nutrientSum : ℚ
  waterSum : ℚ
deriving DecidableEq

/-- One iteration of the scan loop of `Plant::grow` (Main.cpp:130-139). -/
def scanStep (p : Plant) (soil : List SoilCell) (gridSize : ℤ) (cellSize : ℚ)
    (acc : OverlapScan) (idx : ℕ) : OverlapScan :=
  let cell := soil.getD idx defaultCell
  let frac := p.overlapFractionWithCell cell gridSize cellSize
  if frac > 0 then
    { overlaps := acc.overlaps ++ [(idx, frac)]
      totalOverlap := acc.totalOverlap + frac
      nutrientSum := acc.nutrientSum +
        ((cell.nitrogen + cell.phosphorus + cell.potassium) / 3) * frac
      waterSum := acc.waterSum + cell.water * frac }
  else acc

/-- The scan loop of `Plant::grow` (Main.cpp:126-139) over the occupied
cell indices. -/
def scanCells (p : Plant) (soil : List SoilCell) (gridSize : ℤ)
    (cellSize : ℚ) : OverlapScan :=
  (p.getOccupiedSoilIndices gridSize cellSize).foldl
    (scanStep p soil gridSize cellSize) ⟨[], 0, 0, 0⟩

/-- The `production` term of `Plant::grow` (Main.cpp:146-147). -/
def growProduction (p : Plant) (scan : OverlapScan) (lightFactor : ℚ) : ℚ :=
  lightFactor * (scan.nutrientSum / scan.totalOverlap) *
    (scan.waterSum / scan.totalOverlap) * p.photosyntheticEfficiency * p.growthRate

/-- The `maintenance` term of `Plant::grow` (Main.cpp:148), computed from
the size and age at entry. -/
def growMaintenance (p : Plant) : ℚ :=
  p.baseMaintenance + p.maintenancePerSize * p.size + (p.age / p.maxAge) * (1/5)

/-- The `netEnergy` term of `Plant::grow` (Main.cpp:149). -/
def growNetEnergy (p : Plant) (scan : OverlapScan) (lightFactor : ℚ) : ℚ :=
  growProduction p scan lightFactor - growMaintenance p

/-- The growth `delta` of `Plant::grow` (Main.cpp:151). -/
def growDelta (p : Plant) (scan : OverlapScan) (lightFactor : ℚ) : ℚ :=
  p.growthRate * (1/100) * (if growNetEnergy p scan lightFactor > 0 then 1 else 1/5)

/-- The updated size of `Plant::grow` (Main.cpp:152-153): add the delta,
then clamp from below at 0.2. -/
def growSize (p : Plant) (scan : OverlapScan) (lightFactor : ℚ) : ℚ :=
  max (1/5) (p.size + growDelta p scan lightFactor)

/-- The resource `demand` of `Plant::grow` (Main.cpp:155). -/
def growDemand (p : Plant) (scan : OverlapScan) (lightFactor : ℚ) : ℚ :=
  max 0 (growDelta p scan lightFactor * (1/2))

/-- The updated health of `Plant::grow` (Main.cpp:173-174). -/
def growHealth (p : Plant) (scan : OverlapScan) (lightFactor : ℚ) : ℚ :=
  clampf (p.health + growNetEnergy p scan lightFactor * (1/1000) - 1/2000) 0 1

/-- The updated color of `Plant::grow` (Main.cpp:178-179), a function of
the age fraction at entry; the alpha cast to `unsigned char` is modelled
as the floor of the computed value. -/
def growColor (p : Plant) : Color :=
  if p.age / p.maxAge < 3/5 then ⟨50, 150, 50, 255⟩
  else ⟨200, 200, 80, ⌊(255 : ℚ) * (1 - (p.age / p.maxAge - 3/5) / (2/5))⌋⟩

/-- State threaded through the depletion loop of `Plant::grow`
(Main.cpp:156-171): the soil vector, the two shared accumulator maps
(modelled as total functions, matching the default-initializing
`std::map::operator[]`), and the two per-plant stats. -/
structure DepleteAcc where
  soil : List SoilCell
  nutrientUsed : ℤ → ℤ → ℚ
  cellUsage : ℤ → List (ℤ × ℚ × ℚ)
  intake : ℚ
  area : ℚ

/-- One iteration of the depletion loop of `Plant::grow`
(Main.cpp:156-171). -/
def depleteStep (p : Plant) (totalOverlap demand : ℚ)
    (acc : DepleteAcc) (pr : ℕ × ℚ) : DepleteAcc :=
  let idx := pr.1
  let frac := pr.2
  let takeFrac := frac / totalOverlap
  let amountTaken := demand * takeFrac * p.adsorptionEfficiency
  let cell := acc.soil.getD idx defaultCell
  let cell2 : SoilCell :=
    { cell with
      water := max 0 (cell.water - amountTaken * (1/1000))
      nitrogen := max 0 (cell.nitrogen - amountTaken * (1/1000))
      phosphorus := max 0 (cell.phosphorus - amountTaken * (1/1000))
      potassium := max 0 (cell.potassium - amountTaken * (1/1000)) }
  { soil := acc.soil.set idx cell2
    nutrientUsed := fun i j =>
      if i = p.id ∧ j = (idx : ℤ) then acc.nutrientUsed i j + amountTaken
      else acc.nutrientUsed i j
    cellUsage := fun j =>
      if j = (idx : ℤ) then acc.cellUsage j ++ [(p.id, frac, amountTaken)]
      else acc.cellUsage j
    intake := acc.intake + amountTaken
    area := acc.area + frac }

/-- The plant value produced by the main branch of `Plant::grow`
(Main.cpp:142-181): new size, health, age, derived vertical position,
color, recomputed alive flag, and the per-frame stats from the
depletion loop. -/
def growPlantMain (p : Plant) (scan : OverlapScan)
    (lightFactor HEIGHT_SCALE intake area : ℚ) : Plant :=
  { p with
    size := growSize p scan lightFactor
    health := growHealth p scan lightFactor
    age := p.age + 1/100
    position := ⟨p.position.x, growSize p scan lightFactor * HEIGHT_SCALE / 2 + 1/10,
                 p.position.z⟩
    color := growColor p
    alive := decide (growHealth p scan lightFactor > 0 ∧ p.age + 1/100 < p.maxAge)
    lastNutrientIntake := intake
    lastAreaOccupied := area }

/-- Result of one `Plant::grow` call: the updated plant, soil vector and
the two shared accumulator maps. -/
structure GrowResult where
  plant : Plant
  soil : List SoilCell
  nutrientUsed : ℤ → ℤ → ℚ
  cellUsage : ℤ → List (ℤ × ℚ × ℚ)

/-- Embedding of `Plant::grow` (Main.cpp:116-182).  Dead plants return
immediately; a zero total overlap advances only the age (after the stats
reset at Main.cpp:123-124); otherwise the full update runs. -/
def grow (p : Plant) (soil : List SoilCell) (gridSize : ℤ)
    (cellSize lightFactor : ℚ) (nutrientUsed : ℤ → ℤ → ℚ)
    (cellUsage : ℤ → List (ℤ × ℚ × ℚ)) (HEIGHT_SCALE : ℚ) : GrowResult :=
  if p.alive then
    let scan := scanCells p soil gridSize cellSize
    if scan.totalOverlap = 0 then
      ⟨{ p with lastNutrientIntake := 0, lastAreaOccupied := 0, age := p.age + 1/100 },
       soil, nutrientUsed, cellUsage⟩
    else
      let d := scan.overlaps.foldl
        (depleteStep p scan.totalOverlap (growDemand p scan lightFactor))
        ⟨soil, nutrientUsed, cellUsage, 0, 0⟩
      ⟨growPlantMain p scan lightFactor HEIGHT_SCALE d.intake d.area,
       d.soil, d.nutrientUsed, d.cellUsage⟩
  else ⟨p, soil, nutrientUsed, cellUsage⟩

/-- The per-frame light vector of `main` (Main.cpp:230-232): every
plant's shading factor against the same frame-start plant list. -/
def lightFactors (plants : List Plant) : List ℚ :=
  plants.map (fun p => p.calculateLight plants)

/-- The grow phase of `main` (Main.cpp:237-239): plants are updated in
list order, each paired with its precomputed light factor, threading the
soil vector and the two accumulator maps. -/
def growAll (gridSize : ℤ) (cellSize HEIGHT_SCALE : ℚ) :
    List (Plant × ℚ) → List SoilCell → (ℤ → ℤ → ℚ) → (ℤ → List (ℤ × ℚ × ℚ)) →
      List Plant × List SoilCell × (ℤ → ℤ → ℚ) × (ℤ → List (ℤ × ℚ × ℚ))
  | [], soil, nu, cu => ([], soil, nu, cu)
  | (p, lf) :: rest, soil, nu, cu =>
    let r := grow p soil gridSize cellSize lf nu cu HEIGHT_SCALE
    let t := growAll gridSize cellSize HEIGHT_SCALE rest r.soil r.nutrientUsed r.cellUsage
    (r.plant :: t.1, t.2)

/-- One frame of the simulation loop of `main` (Main.cpp:230-239): all
light factors are computed from the frame-start plant list, then every
plant is grown in order with fresh accumulator maps. -/
def frameStep (gridSize : ℤ) (cellSize HEIGHT_SCALE : ℚ)
    (st : List Plant × List SoilCell) : List Plant × List SoilCell :=
  let lights := lightFactors st.1
  let r := growAll gridSize cellSize HEIGHT_SCALE (st.1.zip lights) st.2
    (fun _ _ => 0) (fun _ => [])
  (r.1, r.2.1)

/-- Light factors with an explicit grow order, for the order-independence
property: the lights are computed from the frame-start plant list exactly
as in `main` (Main.cpp:230-232), then the grow phase is applied following
`order` (positions into the plant list), threading soil and accumulators. -/
def growInOrder (gridSize : ℤ) (cellSize HEIGHT_SCALE : ℚ) (lights : List ℚ)
    (order : List ℕ) (plants : List Plant) (soil : List SoilCell)
    (nu : ℤ → ℤ → ℚ) (cu : ℤ → List (ℤ × ℚ × ℚ)) :
    List Plant × List SoilCell × (ℤ → ℤ → ℚ) × (ℤ → List (ℤ × ℚ × ℚ)) :=
  order.foldl (fun st k =>
    match st.1.get? k, lights.get? k with
    | some p, some lf =>
      let r := grow p st.2.1 gridSize cellSize lf st.2.2.1 st.2.2.2 HEIGHT_SCALE
      (st.1.set k r.plant, r.soil, r.nutrientUsed, r.cellUsage)
    | _, _ => st) (plants, soil, nu, cu)

/-- A frame with an explicit grow order: first the snapshot light vector,
then the ordered grow phase.  Returns the light vector actually consumed
together with the final state. -/
def frameRunOrdered (gridSize : ℤ) (cellSize HEIGHT_SCALE : ℚ)
    (plants : List Plant) (soil : List SoilCell) (order : List ℕ) :
    List ℚ × (List Plant × List SoilCell) :=
  let lights := lightFactors plants
  let r := growInOrder gridSize cellSize HEIGHT_SCALE lights order plants soil
    (fun _ _ => 0) (fun _ => [])
  (lights, r.1, r.2.1)

/-! ### Reduction lemmas for the three paths through `grow` -/

/-- A dead plant makes `grow` return its inputs unchanged (Main.cpp:122). -/
theorem grow_of_dead (p : Plant) (soil : List SoilCell) (gridSize : ℤ)
    (cellSize lightFactor : ℚ) (nu : ℤ → ℤ → ℚ) (cu : ℤ → List (ℤ × ℚ × ℚ))
    (HEIGHT_SCALE : ℚ) (h : p.alive = false) :
    grow p soil gridSize cellSize lightFactor nu cu HEIGHT_SCALE =
      ⟨p, soil, nu, cu⟩ := by
  simp [grow, h]

/-- With zero total overlap, `grow` resets the per-frame stats, advances
the age, and returns (Main.cpp:123-124,140). -/
theorem grow_of_zero (p : Plant) (soil : List SoilCell) (gridSize : ℤ)
    (cellSize lightFactor : ℚ) (nu : ℤ → ℤ → ℚ) (cu : ℤ → List (ℤ × ℚ × ℚ))
    (HEIGHT_SCALE : ℚ) (h : p.alive = true)
    (h0 : (scanCells p soil gridSize cellSize).totalOverlap = 0) :
    grow p soil gridSize cellSize lightFactor nu cu HEIGHT_SCALE =
      ⟨{ p with lastNutrientIntake := 0, lastAreaOccupied := 0, age := p.age + 1/100 },
       soil, nu, cu⟩ := by
  simp [grow, h, h0]

/-- With nonzero total overlap, `grow` runs the full update
(Main.cpp:142-181). -/
theorem grow_of_main (p : Plant) (soil : List SoilCell) (gridSize : ℤ)
    (cellSize lightFactor : ℚ) (nu : ℤ → ℤ → ℚ) (cu : ℤ → List (ℤ × ℚ × ℚ))
    (HEIGHT_SCALE : ℚ) (h : p.alive = true)
    (h0 : (scanCells p soil gridSize cellSize).totalOverlap ≠ 0) :
    grow p soil gridSize cellSize lightFactor nu cu HEIGHT_SCALE =
      (let scan := scanCells p soil gridSize cellSize
       let d := scan.overlaps.foldl
         (depleteStep p scan.totalOverlap (growDemand p scan lightFactor))
         ⟨soil, nu, cu, 0, 0⟩
       ⟨growPlantMain p scan lightFactor HEIGHT_SCALE d.intake d.area,
        d.soil, d.nutrientUsed, d.cellUsage⟩) := by
  simp [grow, h, h0]

/-! ### Concrete test vectors (parameters of `main`: GRID_SIZE = 40,
CELL_SIZE = 1, HEIGHT_SCALE = 3; small one-cell grids where the claim is
about a single `grow` call) -/

/-- The everywhere-zero `nutrientUsed` map, the state of the fresh
`std::map` of `main` (Main.cpp:234). -/
def nuZero : ℤ → ℤ → ℚ := fun _ _ => 0

/-- The everywhere-empty `cellUsage` map (Main.cpp:235). -/
def cuEmpty : ℤ → List (ℤ × ℚ × ℚ) := fun _ => []

/-- A soil cell at grid coordinates (x, z) with all resources 3/4. -/
def mkCell (x z : ℚ) : SoilCell := ⟨⟨x, z⟩, 3/4, 3/4, 3/4, 3/4⟩

/-- One-cell soil grid for gridSize = 1. -/
def soilOne : List SoilCell := [mkCell 0 0]

/-- A plant with the constructor constants of Main.cpp:57-70. -/
def mkPlant (i : ℤ) (pos : Vec3) (s rate health age maxAge : ℚ) (intake : ℚ) : Plant :=
  ⟨i, pos, s, ⟨50, 150, 50, 255⟩, rate, health, age, maxAge, true,
   1, 1/5, 1/100, 9/10, intake, 0⟩

/-- Plant centered exactly on soil cell (20,20) of the 40-grid: world
position x = z = 20 - 20 + 1/2, footprint size 1. -/
def plantCenter40 : Plant := mkPlant 0 ⟨1/2, 1/2, 1/2⟩ 1 (1/100) 1 0 200 0

/-- Plant centered on the single cell of the one-cell grid. -/
def plantCentered : Plant := mkPlant 0 ⟨0, 1/2, 0⟩ 1 (1/100) 1 0 200 0

/-- Live plant far outside the one-cell grid, age one frame short of
`maxAge`. -/
def plantOffGrid : Plant := mkPlant 0 ⟨1000, 1/2, 1000⟩ 1 (1/100) 1 (19999/100) 200 0

/-- Live off-grid plant carrying a nonzero per-frame stat from an
earlier frame. -/
def plantOffGridStat : Plant := mkPlant 0 ⟨1000, 1/2, 1000⟩ 1 (1/100) 1 10 200 1

/-- A dead plant (alive = false). -/
def plantDead : Plant :=
  { mkPlant 0 ⟨0, 1/2, 0⟩ 1 (1/100) 0 300 200 5 with alive := false }

/-- Low plant for the shading scenario. -/
def plantLow : Plant := mkPlant 0 ⟨0, 0, 0⟩ 1 (1/100) 1 0 200 0

/-- Taller plant with the same footprint for the shading scenario. -/
def plantHigh : Plant := mkPlant 1 ⟨0, 2, 0⟩ 1 (1/100) 1 0 200 0

/-! ### C1: light-factor snapshot order-independence -/

/-- C1: the light vector of a frame is a pure function of the frame-start
plant snapshot.  Whatever order the grow updates are subsequently applied
in, the vector of shading factors consumed by the frame equals
`lightFactors` of the snapshot, and the frame loop of `main` computes all
light factors from that snapshot before any plant grows. -/
theorem light_snapshot_order_independent (gridSize : ℤ)
    (cellSize HEIGHT_SCALE : ℚ) (plants : List Plant) (soil : List SoilCell)
    (order1 order2 : List ℕ) :
    (frameRunOrdered gridSize cellSize HEIGHT_SCALE plants soil order1).1 =
      (frameRunOrdered gridSize cellSize HEIGHT_SCALE plants soil order2).1 ∧
    (frameRunOrdered gridSize cellSize HEIGHT_SCALE plants soil order1).1 =
      lightFactors plants ∧
    frameStep gridSize cellSize HEIGHT_SCALE (plants, soil) =
      (let r := growAll gridSize cellSize HEIGHT_SCALE
         (plants.zip (lightFactors plants)) soil nuZero cuEmpty
       (r.1, r.2.1)) := by
  refine ⟨rfl, rfl, rfl⟩

/-! ### C5: the shading factor -/

/-- Contribution of plant `q` to plant `p`'s shading factor, read off
from the loop body of `calculateLight`. -/
def shadeTerm (p q : Plant) : ℚ :=
  if q.id = p.id then 1
  else
    let overlap := overlapAreaXZ p.position.x p.position.z (p.size * (1/2))
      q.position.x q.position.z (q.size * (1/2))
    if overlap ≤ 0 then 1
    else if q.topY > p.topY then 1 - (overlap / (p.size * p.size)) * (1/2) else 1

theorem lightStep_eq_mul (p : Plant) (a : ℚ) (q : Plant) :
    lightStep p a q = a * shadeTerm p q := by
  simp only [lightStep, shadeTerm]
  split_ifs <;> ring

theorem foldl_lightStep_eq_prod (p : Plant) (l : List Plant) :
    ∀ a : ℚ, l.foldl (lightStep p) a = a * (l.map (shadeTerm p)).prod := by
  induction l with
  | nil => intro a; simp
  | cons q t ih =>
    intro a
    simp only [List.foldl_cons, List.map_cons, List.prod_cons, ih, lightStep_eq_mul]
    ring

/-- The shading factor as a clamped product over the other plants. -/
theorem calculateLight_eq_prod (p : Plant) (l : List Plant) :
    p.calculateLight l = clampf ((l.map (shadeTerm p)).prod) 0 1 := by
  simp [Plant.calculateLight, foldl_lightStep_eq_prod]

/-- C5: the shading factor starts at 1.0 and multiplies, for each other
plant with nonzero footprint overlap and strictly greater canopy top, by
(1 - overlapFraction * 1/2), clamped to [0,1]; plants with equal or lower
canopy top contribute nothing; and for two plants with the same footprint
(equal x, z and size), the one with strictly greater canopy top keeps
factor 1.0 while the lower one gets factor 1/2 < 1. -/
theorem shading_factor_spec (p q : Plant) (hx : q.position.x = p.position.x)
    (hz : q.position.z = p.position.z) (hsz : q.size = p.size)
    (hpos : 0 < p.size) (htall : q.topY > p.topY) (hid : q.id ≠ p.id) :
    (∀ (r : Plant) (l : List Plant),
        r.calculateLight l = clampf ((l.map (shadeTerm r)).prod) 0 1) ∧
    (∀ (r : Plant) (l : List Plant), (∀ s ∈ l, s.topY ≤ r.topY) →
        r.calculateLight l = 1) ∧
    p.calculateLight [p, q] = 1/2 ∧
    p.calculateLight [p, q] < 1 ∧
    q.calculateLight [p, q] = 1 := by
  have e1 : p.position.x + p.size * (1/2) - (p.position.x - p.size * (1/2)) =
      p.size := by ring
  have e2 : p.position.z + p.size * (1/2) - (p.position.z - p.size * (1/2)) =
      p.size := by ring
  have hterm_pp : shadeTerm p p = 1 := by simp [shadeTerm]
  have hover : overlapAreaXZ p.position.x p.position.z (p.size * (1/2))
      q.position.x q.position.z (q.size * (1/2)) = p.size * p.size := by
    simp only [overlapAreaXZ, hx, hz, hsz, min_self, max_self, e1, e2,
      max_eq_right hpos.le]
  have hover2 : overlapAreaXZ q.position.x q.position.z (q.size * (1/2))
      p.position.x p.position.z (p.size * (1/2)) = p.size * p.size := by
    simp only [overlapAreaXZ, hx, hz, hsz, min_self, max_self, e1, e2,
      max_eq_right hpos.le]
  have hne : ¬ (p.size * p.size ≤ 0) := by
    push_neg; exact mul_pos hpos hpos
  have hterm_pq : shadeTerm p q = 1/2 := by
    simp only [shadeTerm, if_neg hid, hover, if_neg hne, if_pos htall]
    rw [div_self (mul_pos hpos hpos).ne']
    norm_num
  have h12 : p.calculateLight [p, q] = 1/2 := by
    rw [calculateLight_eq_prod]
    simp only [List.map_cons, List.map_nil, List.prod_cons, List.prod_nil,
      hterm_pp, hterm_pq, mul_one, one_mul, clampf]
    rw [min_eq_left (by norm_num : (1:ℚ)/2 ≤ 1),
      max_eq_right (by norm_num : (0:ℚ) ≤ 1/2)]
  refine ⟨calculateLight_eq_prod, ?_, h12, ?_, ?_⟩
  · intro r l hl
    rw [calculateLight_eq_prod]
    have hone : ∀ s ∈ l, shadeTerm r s = 1 := by
      intro s hs
      have hns : ¬ s.topY > r.topY := not_lt.mpr (hl s hs)
      simp only [shadeTerm]
      split_ifs <;> simp_all
    rw [List.prod_eq_one (by simpa using fun x hx => hone x hx)]
    simp [clampf]
  · rw [h12]; norm_num
  · rw [calculateLight_eq_prod]
    have hqq : shadeTerm q q = 1 := by simp [shadeTerm]
    have hqp : shadeTerm q p = 1 := by
      have hid2 : p.id ≠ q.id := hid.symm
      have hnt : ¬ p.topY > q.topY := not_lt.mpr htall.le
      simp only [shadeTerm, if_neg hid2, hover2, if_neg hne, if_neg hnt]
    simp [hqq, hqp, clampf]

/-- Witness for C5 at the concrete stacked plants. -/
theorem shading_factor_spec_witness :
    plantLow.calculateLight [plantLow, plantHigh] = 1/2 ∧
    plantLow.calculateLight [plantLow, plantHigh] < 1 ∧
    plantHigh.calculateLight [plantLow, plantHigh] = 1 := by
  have h := shading_factor_spec plantLow plantHigh rfl rfl rfl
    (by norm_num [plantLow, mkPlant])
    (by norm_num [Plant.topY, plantHigh, plantLow, mkPlant])
    (by norm_num [plantHigh, plantLow, mkPlant])
  exact ⟨h.2.2.1, h.2.2.2.1, h.2.2.2.2⟩

/-! ### C6: plant centered exactly on one cell -/

/-- Evaluation of the occupied indices of the centered plant on the
40-grid: the floors give the x and z ranges 20..21, so four cells pass
the clip to the grid. -/
theorem occupied_plantCenter40 :
    plantCenter40.getOccupiedSoilIndices 40 1 = [820, 860, 821, 861] := by
  norm_num [Plant.getOccupiedSoilIndices, plantCenter40, mkPlant,
    safeFloorToInt, intRange]
  decide

/-- C6 counterexample: for the plant centered exactly on cell (20,20) of
the 40-grid with footprint 1.0 and cell size 1.0, `getOccupiedSoilIndices`
does not return exactly that one cell index 820 = 20*40+20: the
conservative bounding range also returns the +x/+z neighbor cells. -/
theorem occupied_indices_not_single :
    plantCenter40.getOccupiedSoilIndices 40 1 ≠ [820] ∧
    (860 : ℕ) ∈ plantCenter40.getOccupiedSoilIndices 40 1 := by
  rw [occupied_plantCenter40]
  decide

/-- C6 amended: the centered plant's occupied indices are the
conservative 2-by-2 block of cells (20,20), (20,21), (21,20), (21,21)
in the loop's x-outer z-inner order; the centered cell's overlap
fraction is 1.0 and each of the three extra cells' fraction is 0. -/
theorem occupied_indices_centered :
    plantCenter40.getOccupiedSoilIndices 40 1 = [820, 860, 821, 861] ∧
    plantCenter40.overlapFractionWithCell (mkCell 20 20) 40 1 = 1 ∧
    plantCenter40.overlapFractionWithCell (mkCell 21 20) 40 1 = 0 ∧
    plantCenter40.overlapFractionWithCell (mkCell 20 21) 40 1 = 0 ∧
    plantCenter40.overlapFractionWithCell (mkCell 21 21) 40 1 = 0 := by
  refine ⟨occupied_plantCenter40, ?_, ?_, ?_, ?_⟩ <;>
    norm_num [Plant.overlapFractionWithCell, overlapAreaXZ, clampf,
      plantCenter40, mkPlant, mkCell]

/-! ### Concrete index and scan evaluations used by several witnesses -/

/-- The off-grid plants enumerate x,z ranges 1000..1001, all clipped away. -/
theorem occupied_plantOffGrid :
    plantOffGrid.getOccupiedSoilIndices 1 1 = [] := by
  norm_num [Plant.getOccupiedSoilIndices, plantOffGrid, mkPlant,
    safeFloorToInt, intRange]
  intros
  omega

theorem occupied_plantOffGridStat :
    plantOffGridStat.getOccupiedSoilIndices 1 1 = [] := by
  norm_num [Plant.getOccupiedSoilIndices, plantOffGridStat, mkPlant,
    safeFloorToInt, intRange]
  intros
  omega

theorem scan_plantOffGrid_total :
    (scanCells plantOffGrid soilOne 1 1).totalOverlap = 0 := by
  unfold scanCells
  rw [occupied_plantOffGrid]
  rfl

theorem scan_plantOffGridStat_total :
    (scanCells plantOffGridStat soilOne 1 1).totalOverlap = 0 := by
  unfold scanCells
  rw [occupied_plantOffGridStat]
  rfl

/-- The centered plant on the one-cell grid occupies exactly cell 0. -/
theorem occupied_plantCentered :
    plantCentered.getOccupiedSoilIndices 1 1 = [0] := by
  norm_num [Plant.getOccupiedSoilIndices, plantCentered, mkPlant,
    safeFloorToInt, intRange]
  decide

theorem scan_plantCentered_total :
    (scanCells plantCentered soilOne 1 1).totalOverlap = 1 := by
  unfold scanCells
  rw [occupied_plantCentered]
  simp only [List.foldl_cons, List.foldl_nil]
  norm_num [scanStep, Plant.overlapFractionWithCell, overlapAreaXZ, clampf,
    soilOne, mkCell, plantCentered, mkPlant, defaultCell]

/-! ### C2: the alive flag versus the predicate health > 0 and age < maxAge -/

/-- C2 counterexample: a live plant one frame short of `maxAge` whose
footprint is entirely off-grid takes the zero-overlap early return, which
advances the age past `maxAge` without recomputing the alive flag, so
after the call alive = true while the predicate health > 0 and
age < maxAge is false. -/
theorem alive_flag_stale_zero_overlap :
    (grow plantOffGrid soilOne 1 1 0 nuZero cuEmpty 3).plant.alive = true ∧
    ¬ ((grow plantOffGrid soilOne 1 1 0 nuZero cuEmpty 3).plant.health > 0 ∧
       (grow plantOffGrid soilOne 1 1 0 nuZero cuEmpty 3).plant.age <
         (grow plantOffGrid soilOne 1 1 0 nuZero cuEmpty 3).plant.maxAge) := by
  rw [grow_of_zero plantOffGrid soilOne 1 1 0 nuZero cuEmpty 3 rfl
    scan_plantOffGrid_total]
  refine ⟨rfl, ?_⟩
  simp only [plantOffGrid, mkPlant]
  norm_num

/-- C2 amended: after any `grow` call of a live plant whose total overlap
is nonzero, the alive flag equals the predicate health > 0 and
age < maxAge on the resulting state; on the zero-overlap early-return
path the age advances without recomputing the flag, so the equivalence
can fail there. -/
theorem alive_iff_after_full_update (p : Plant) (soil : List SoilCell)
    (gridSize : ℤ) (cellSize lightFactor : ℚ) (nu : ℤ → ℤ → ℚ)
    (cu : ℤ → List (ℤ × ℚ × ℚ)) (HEIGHT_SCALE : ℚ) (ha : p.alive = true)
    (h0 : (scanCells p soil gridSize cellSize).totalOverlap ≠ 0) :
    ((grow p soil gridSize cellSize lightFactor nu cu HEIGHT_SCALE).plant.alive = true ↔
      ((grow p soil gridSize cellSize lightFactor nu cu HEIGHT_SCALE).plant.health > 0 ∧
       (grow p soil gridSize cellSize lightFactor nu cu HEIGHT_SCALE).plant.age <
         (grow p soil gridSize cellSize lightFactor nu cu HEIGHT_SCALE).plant.maxAge)) := by
  rw [grow_of_main p soil gridSize cellSize lightFactor nu cu HEIGHT_SCALE ha h0]
  simp [growPlantMain]

/-- Witness for the amended C2 at the centered plant. -/
theorem alive_iff_after_full_update_witness :
    ((grow plantCentered soilOne 1 1 0 nuZero cuEmpty 3).plant.alive = true ↔
      ((grow plantCentered soilOne 1 1 0 nuZero cuEmpty 3).plant.health > 0 ∧
       (grow plantCentered soilOne 1 1 0 nuZero cuEmpty 3).plant.age <
         (grow plantCentered soilOne 1 1 0 nuZero cuEmpty 3).plant.maxAge)) :=
  alive_iff_after_full_update plantCentered soilOne 1 1 0 nuZero cuEmpty 3 rfl
    (by rw [scan_plantCentered_total]; norm_num)

/-! ### C7: the zero-overlap frame effect -/

/-- C7 counterexample: the zero-overlap early return does change
something besides the age: it resets the per-frame stat
`lastNutrientIntake` (and `lastAreaOccupied`) to 0 before returning,
so a live off-grid plant carrying a nonzero stat from an earlier frame
is mutated beyond its age. -/
theorem zero_overlap_resets_stats :
    (grow plantOffGridStat soilOne 1 1 0 nuZero cuEmpty 3).plant.lastNutrientIntake ≠
      plantOffGridStat.lastNutrientIntake := by
  rw [grow_of_zero plantOffGridStat soilOne 1 1 0 nuZero cuEmpty 3 rfl
    scan_plantOffGridStat_total]
  simp only [plantOffGridStat, mkPlant]
  norm_num

/-- C7 amended: for a live plant with zero total overlap, `grow` advances
the age by exactly 1/100, resets the two per-frame stats to 0, and
changes nothing else: the soil vector, both usage accumulators, and the
plant's size, health, position and color are unchanged. -/
theorem zero_overlap_frame_effect (p : Plant) (soil : List SoilCell)
    (gridSize : ℤ) (cellSize lightFactor : ℚ) (nu : ℤ → ℤ → ℚ)
    (cu : ℤ → List (ℤ × ℚ × ℚ)) (HEIGHT_SCALE : ℚ) (ha : p.alive = true)
    (h0 : (scanCells p soil gridSize cellSize).totalOverlap = 0) :
    grow p soil gridSize cellSize lightFactor nu cu HEIGHT_SCALE =
      ⟨{ p with lastNutrientIntake := 0, lastAreaOccupied := 0, age := p.age + 1/100 },
       soil, nu, cu⟩ ∧
    (grow p soil gridSize cellSize lightFactor nu cu HEIGHT_SCALE).plant.age =
      p.age + 1/100 ∧
    (grow p soil gridSize cellSize lightFactor nu cu HEIGHT_SCALE).soil = soil ∧
    (grow p soil gridSize cellSize lightFactor nu cu HEIGHT_SCALE).plant.size = p.size ∧
    (grow p soil gridSize cellSize lightFactor nu cu HEIGHT_SCALE).plant.health =
      p.health ∧
    (grow p soil gridSize cellSize lightFactor nu cu HEIGHT_SCALE).plant.position =
      p.position ∧
    (grow p soil gridSize cellSize lightFactor nu cu HEIGHT_SCALE).plant.color =
      p.color := by
  rw [grow_of_zero p soil gridSize cellSize lightFactor nu cu HEIGHT_SCALE ha h0]
  exact ⟨rfl, rfl, rfl, rfl, rfl, rfl, rfl⟩

/-- Witness for the amended C7 at the off-grid plant. -/
theorem zero_overlap_frame_effect_witness :
    (grow plantOffGrid soilOne 1 1 0 nuZero cuEmpty 3).plant.age =
      plantOffGrid.age + 1/100 ∧
    (grow plantOffGrid soilOne 1 1 0 nuZero cuEmpty 3).soil = soilOne ∧
    (grow plantOffGrid soilOne 1 1 0 nuZero cuEmpty 3).plant.size =
      plantOffGrid.size ∧
    (grow plantOffGrid soilOne 1 1 0 nuZero cuEmpty 3).plant.health =
      plantOffGrid.health := by
  have h := zero_overlap_frame_effect plantOffGrid soilOne 1 1 0 nuZero cuEmpty 3
    rfl scan_plantOffGrid_total
  exact ⟨h.2.1, h.2.2.1, h.2.2.2.1, h.2.2.2.2.1⟩

/-! ### C8: dead plants are a permanent no-op -/

/-- One step of repeatedly growing a single plant's state tuple. -/
def growStep1 (gridSize : ℤ) (cellSize lightFactor HEIGHT_SCALE : ℚ)
    (r : GrowResult) : GrowResult :=
  grow r.plant r.soil gridSize cellSize lightFactor r.nutrientUsed r.cellUsage
    HEIGHT_SCALE

/-- C8: a `grow` call on a plant whose alive flag is false mutates
nothing: the plant (all fields, its per-frame stats included), the soil
vector and both usage accumulators are returned exactly as given, and
iterating the call any number of further frames still changes nothing. -/
theorem dead_plant_noop (p : Plant) (soil : List SoilCell) (gridSize : ℤ)
    (cellSize lightFactor : ℚ) (nu : ℤ → ℤ → ℚ) (cu : ℤ → List (ℤ × ℚ × ℚ))
    (HEIGHT_SCALE : ℚ) (h : p.alive = false) :
    grow p soil gridSize cellSize lightFactor nu cu HEIGHT_SCALE =
      ⟨p, soil, nu, cu⟩ ∧
    ∀ n : ℕ, (growStep1 gridSize cellSize lightFactor HEIGHT_SCALE)^[n]
      ⟨p, soil, nu, cu⟩ = ⟨p, soil, nu, cu⟩ := by
  refine ⟨grow_of_dead p soil gridSize cellSize lightFactor nu cu HEIGHT_SCALE h, ?_⟩
  intro n
  induction n with
  | zero => rfl
  | succ k ih =>
    rw [Function.iterate_succ_apply', ih]
    exact grow_of_dead p soil gridSize cellSize lightFactor nu cu HEIGHT_SCALE h

/-- Witness for C8 at a concrete dead plant, iterated 5 frames. -/
theorem dead_plant_noop_witness :
    grow plantDead soilOne 1 1 (1/2) nuZero cuEmpty 3 =
      ⟨plantDead, soilOne, nuZero, cuEmpty⟩ ∧
    (growStep1 1 1 (1/2) 3)^[5] ⟨plantDead, soilOne, nuZero, cuEmpty⟩ =
      ⟨plantDead, soilOne, nuZero, cuEmpty⟩ := by
  have h := dead_plant_noop plantDead soilOne 1 1 (1/2) nuZero cuEmpty 3 rfl
  exact ⟨h.1, h.2 5⟩

/-! ### C10: size never shrinks -/

/-- Growth rate assigned in `main` (Main.cpp:209) with k = rand() % 10. -/
def mainGrowthRate (k : ℕ) : ℚ := 1/100 + (k : ℚ) / 2000

/-- C10: on a full update of a live plant with nonzero overlap and
positive growth rate, the growth delta is strictly positive in both
energy branches, so size strictly increases and the 0.2 floor clamp does
not bind once size is at least 0.2; with any nonnegative growth rate,
size never decreases on any path through `grow`; and every growth rate
assigned in `main` is at least 0.01. -/
theorem size_never_shrinks :
    (∀ (p : Plant) (soil : List SoilCell) (gridSize : ℤ)
       (cellSize lightFactor : ℚ) (nu : ℤ → ℤ → ℚ)
       (cu : ℤ → List (ℤ × ℚ × ℚ)) (HEIGHT_SCALE : ℚ), p.alive = true →
       (scanCells p soil gridSize cellSize).totalOverlap ≠ 0 →
       0 < p.growthRate →
       p.size < (grow p soil gridSize cellSize lightFactor nu cu
         HEIGHT_SCALE).plant.size ∧
       (1/5 ≤ p.size →
         (grow p soil gridSize cellSize lightFactor nu cu HEIGHT_SCALE).plant.size =
           p.size + growDelta p (scanCells p soil gridSize cellSize) lightFactor)) ∧
    (∀ (p : Plant) (soil : List SoilCell) (gridSize : ℤ)
       (cellSize lightFactor : ℚ) (nu : ℤ → ℤ → ℚ)
       (cu : ℤ → List (ℤ × ℚ × ℚ)) (HEIGHT_SCALE : ℚ), 0 ≤ p.growthRate →
       p.size ≤ (grow p soil gridSize cellSize lightFactor nu cu
         HEIGHT_SCALE).plant.size) ∧
    (∀ k : ℕ, 1/100 ≤ mainGrowthRate k) := by
  refine ⟨?_, ?_, ?_⟩
  · intro p soil gridSize cellSize lightFactor nu cu HEIGHT_SCALE ha h0 hgr
    have hd : 0 < growDelta p (scanCells p soil gridSize cellSize) lightFactor := by
      unfold growDelta
      split_ifs <;> positivity
    rw [grow_of_main p soil gridSize cellSize lightFactor nu cu HEIGHT_SCALE ha h0]
    simp only [growPlantMain, growSize]
    constructor
    · exact lt_of_lt_of_le (lt_add_of_pos_right p.size hd) (le_max_right _ _)
    · intro h15
      exact max_eq_right (le_trans h15 (le_of_lt (lt_add_of_pos_right p.size hd)))
  · intro p soil gridSize cellSize lightFactor nu cu HEIGHT_SCALE hgr
    rcases Bool.eq_false_or_eq_true p.alive with ha | hd
    · by_cases h0 : (scanCells p soil gridSize cellSize).totalOverlap = 0
      · rw [grow_of_zero p soil gridSize cellSize lightFactor nu cu HEIGHT_SCALE ha h0]
      · rw [grow_of_main p soil gridSize cellSize lightFactor nu cu HEIGHT_SCALE ha h0]
        have hnn : 0 ≤ growDelta p (scanCells p soil gridSize cellSize) lightFactor := by
          unfold growDelta
          split_ifs <;> positivity
        simp only [growPlantMain, growSize]
        exact le_trans (le_add_of_nonneg_right hnn) (le_max_right _ _)
    · rw [grow_of_dead p soil gridSize cellSize lightFactor nu cu HEIGHT_SCALE hd]
  · intro k
    unfold mainGrowthRate
    have : (0 : ℚ) ≤ (k : ℚ) / 2000 := by positivity
    linarith

/-- Witness for C10 at the centered plant and k = 7. -/
theorem size_never_shrinks_witness :
    plantCentered.size < (grow plantCentered soilOne 1 1 0 nuZero cuEmpty 3).plant.size ∧
    plantCentered.size ≤ (grow plantCentered soilOne 1 1 0 nuZero cuEmpty 3).plant.size ∧
    1/100 ≤ mainGrowthRate 7 := by
  have h0 : (scanCells plantCentered soilOne 1 1).totalOverlap ≠ 0 := by
    rw [scan_plantCentered_total]; norm_num
  have hgr : (0 : ℚ) < plantCentered.growthRate := by
    norm_num [plantCentered, mkPlant]
  exact ⟨(size_never_shrinks.1 plantCentered soilOne 1 1 0 nuZero cuEmpty 3 rfl
      h0 hgr).1,
    size_never_shrinks.2.1 plantCentered soilOne 1 1 0 nuZero cuEmpty 3 hgr.le,
    size_never_shrinks.2.2 7⟩

/-! ### C4: the take-fraction partition -/

/-- The scan loop keeps the sum of the recorded overlap fractions equal
to its running total. -/
theorem scan_foldl_sum_inv (p : Plant) (soil : List SoilCell) (gridSize : ℤ)
    (cellSize : ℚ) (l : List ℕ) :
    ∀ acc : OverlapScan, (acc.overlaps.map Prod.snd).sum = acc.totalOverlap →
      ((l.foldl (scanStep p soil gridSize cellSize) acc).overlaps.map Prod.snd).sum =
        (l.foldl (scanStep p soil gridSize cellSize) acc).totalOverlap := by
  induction l with
  | nil => intro acc h; exact h
  | cons i t ih =>
    intro acc h
    simp only [List.foldl_cons]
    apply ih
    simp only [scanStep]
    split_ifs with hf
    · simp [h]
    · exact h

theorem scan_overlaps_sum (p : Plant) (soil : List SoilCell) (gridSize : ℤ)
    (cellSize : ℚ) :
    ((scanCells p soil gridSize cellSize).overlaps.map Prod.snd).sum =
      (scanCells p soil gridSize cellSize).totalOverlap :=
  scan_foldl_sum_inv p soil gridSize cellSize _ ⟨[], 0, 0, 0⟩ (by simp)

theorem list_sum_map_div (l : List (ℕ × ℚ)) (t : ℚ) :
    (l.map (fun pr => pr.2 / t)).sum = (l.map Prod.snd).sum / t := by
  induction l with
  | nil => simp
  | cons a tl ih => simp [ih, add_div]

theorem list_sum_map_mul_div (l : List (ℕ × ℚ)) (d e t : ℚ) :
    (l.map (fun pr => d * (pr.2 / t) * e)).sum =
      d * e * ((l.map Prod.snd).sum / t) := by
  induction l with
  | nil => simp
  | cons a tl ih =>
    simp only [List.map_cons, List.sum_cons, ih]
    ring

/-- The depletion loop accumulates exactly the per-cell amounts into
`lastNutrientIntake`. -/
theorem deplete_foldl_intake (p : Plant) (t d : ℚ) (l : List (ℕ × ℚ)) :
    ∀ acc : DepleteAcc, (l.foldl (depleteStep p t d) acc).intake =
      acc.intake + (l.map (fun pr => d * (pr.2 / t) * p.adsorptionEfficiency)).sum := by
  induction l with
  | nil => intro acc; simp
  | cons a tl ih =>
    intro acc
    simp only [List.foldl_cons, ih, List.map_cons, List.sum_cons, depleteStep]
    ring

/-- C4: when the total overlap is nonzero, the per-cell take-fractions
(each recorded overlap fraction divided by the total) sum to exactly 1,
and the plant's total amount taken across cells — its
`lastNutrientIntake` after the update — equals demand times
adsorptionEfficiency. -/
theorem take_fraction_partition (p : Plant) (soil : List SoilCell)
    (gridSize : ℤ) (cellSize lightFactor : ℚ) (nu : ℤ → ℤ → ℚ)
    (cu : ℤ → List (ℤ × ℚ × ℚ)) (HEIGHT_SCALE : ℚ) (ha : p.alive = true)
    (h0 : (scanCells p soil gridSize cellSize).totalOverlap ≠ 0) :
    ((scanCells p soil gridSize cellSize).overlaps.map
        (fun pr => pr.2 / (scanCells p soil gridSize cellSize).totalOverlap)).sum = 1 ∧
    (grow p soil gridSize cellSize lightFactor nu cu HEIGHT_SCALE).plant.lastNutrientIntake =
      growDemand p (scanCells p soil gridSize cellSize) lightFactor *
        p.adsorptionEfficiency := by
  constructor
  · rw [list_sum_map_div, scan_overlaps_sum, div_self h0]
  · rw [grow_of_main p soil gridSize cellSize lightFactor nu cu HEIGHT_SCALE ha h0]
    simp only [growPlantMain]
    rw [deplete_foldl_intake, list_sum_map_mul_div, scan_overlaps_sum, div_self h0,
      mul_one, zero_add]

/-- Witness for C4 at the centered plant on the one-cell grid. -/
theorem take_fraction_partition_witness :
    ((scanCells plantCentered soilOne 1 1).overlaps.map
        (fun pr => pr.2 / (scanCells plantCentered soilOne 1 1).totalOverlap)).sum = 1 ∧
    (grow plantCentered soilOne 1 1 0 nuZero cuEmpty 3).plant.lastNutrientIntake =
      growDemand plantCentered (scanCells plantCentered soilOne 1 1) 0 *
        plantCentered.adsorptionEfficiency :=
  take_fraction_partition plantCentered soilOne 1 1 0 nuZero cuEmpty 3 rfl
    (by rw [scan_plantCentered_total]; norm_num)

/-! ### C3: soil resources never go negative -/

/-- All four resource scalars of every cell are nonnegative. -/
def SoilNonneg (soil : List SoilCell) : Prop :=
  ∀ c ∈ soil, 0 ≤ c.water ∧ 0 ≤ c.nitrogen ∧ 0 ≤ c.phosphorus ∧ 0 ≤ c.potassium

theorem soilNonneg_set (soil : List SoilCell) (i : ℕ) (c : SoilCell)
    (h : SoilNonneg soil)
    (hc : 0 ≤ c.water ∧ 0 ≤ c.nitrogen ∧ 0 ≤ c.phosphorus ∧ 0 ≤ c.potassium) :
    SoilNonneg (soil.set i c) := by
  intro x hx
  rcases List.mem_or_eq_of_mem_set hx with h1 | h2
  · exact h x h1
  · rw [h2]; exact hc

theorem depleteStep_soil_nonneg (p : Plant) (t d : ℚ) (acc : DepleteAcc)
    (pr : ℕ × ℚ) (h : SoilNonneg acc.soil) :
    SoilNonneg (depleteStep p t d acc pr).soil := by
  simp only [depleteStep]
  exact soilNonneg_set _ _ _ h
    ⟨le_max_left _ _, le_max_left _ _, le_max_left _ _, le_max_left _ _⟩

theorem deplete_foldl_soil_nonneg (p : Plant) (t d : ℚ) (l : List (ℕ × ℚ)) :
    ∀ acc : DepleteAcc, SoilNonneg acc.soil →
      SoilNonneg ((l.foldl (depleteStep p t d) acc)).soil := by
  induction l with
  | nil => intro acc h; exact h
  | cons a tl ih =>
    intro acc h
    simp only [List.foldl_cons]
    exact ih _ (depleteStep_soil_nonneg p t d acc a h)

theorem grow_soil_nonneg (p : Plant) (soil : List SoilCell) (gridSize : ℤ)
    (cellSize lightFactor : ℚ) (nu : ℤ → ℤ → ℚ) (cu : ℤ → List (ℤ × ℚ × ℚ))
    (HEIGHT_SCALE : ℚ) (h : SoilNonneg soil) :
    SoilNonneg (grow p soil gridSize cellSize lightFactor nu cu HEIGHT_SCALE).soil := by
  rcases Bool.eq_false_or_eq_true p.alive with ha | hd
  · by_cases h0 : (scanCells p soil gridSize cellSize).totalOverlap = 0
    · rw [grow_of_zero p soil gridSize cellSize lightFactor nu cu HEIGHT_SCALE ha h0]
      exact h
    · rw [grow_of_main p soil gridSize cellSize lightFactor nu cu HEIGHT_SCALE ha h0]
      exact deplete_foldl_soil_nonneg _ _ _ _ _ h
  · rw [grow_of_dead p soil gridSize cellSize lightFactor nu cu HEIGHT_SCALE hd]
    exact h

theorem growAll_soil_nonneg (gridSize : ℤ) (cellSize HEIGHT_SCALE : ℚ) :
    ∀ (pairs : List (Plant × ℚ)) (soil : List SoilCell) (nu : ℤ → ℤ → ℚ)
      (cu : ℤ → List (ℤ × ℚ × ℚ)), SoilNonneg soil →
      SoilNonneg (growAll gridSize cellSize HEIGHT_SCALE pairs soil nu cu).2.1 := by
  intro pairs
  induction pairs with
  | nil => intro soil nu cu h; exact h
  | cons a rest ih =>
    intro soil nu cu h
    obtain ⟨p, lf⟩ := a
    simp only [growAll]
    exact ih _ _ _
      (grow_soil_nonneg p soil gridSize cellSize lf nu cu HEIGHT_SCALE h)

/-- C3: all four resource scalars of every soil cell stay nonnegative:
every single `grow` call preserves the invariant (each depletion writes
max 0 of the decremented value), and therefore so does any number of
whole frames. -/
theorem soil_resources_nonneg :
    (∀ (p : Plant) (soil : List SoilCell) (gridSize : ℤ)
       (cellSize lightFactor : ℚ) (nu : ℤ → ℤ → ℚ)
       (cu : ℤ → List (ℤ × ℚ × ℚ)) (HEIGHT_SCALE : ℚ), SoilNonneg soil →
       SoilNonneg (grow p soil gridSize cellSize lightFactor nu cu HEIGHT_SCALE).soil) ∧
    (∀ (gridSize : ℤ) (cellSize HEIGHT_SCALE : ℚ) (plants : List Plant)
       (soil : List SoilCell) (n : ℕ), SoilNonneg soil →
       SoilNonneg ((frameStep gridSize cellSize HEIGHT_SCALE)^[n] (plants, soil)).2) := by
  constructor
  · exact grow_soil_nonneg
  · intro gridSize cellSize HEIGHT_SCALE plants soil n
    induction n generalizing plants soil with
    | zero => intro h; exact h
    | succ k ih =>
      intro h
      rw [Function.iterate_succ_apply]
      have hstep : SoilNonneg ((frameStep gridSize cellSize HEIGHT_SCALE)
          (plants, soil)).2 := by
        simp only [frameStep]
        exact growAll_soil_nonneg gridSize cellSize HEIGHT_SCALE _ _ _ _ h
      have := ih (frameStep gridSize cellSize HEIGHT_SCALE (plants, soil)).1
        (frameStep gridSize cellSize HEIGHT_SCALE (plants, soil)).2 hstep
      simpa using this

/-- Witness for C3 at the centered plant, one grow call and two frames. -/
theorem soil_resources_nonneg_witness :
    SoilNonneg (grow plantCentered soilOne 1 1 0 nuZero cuEmpty 3).soil ∧
    SoilNonneg ((frameStep 1 1 3)^[2] ([plantCentered], soilOne)).2 := by
  have hsoil : SoilNonneg soilOne := by
    intro c hc
    rw [soilOne, List.mem_singleton] at hc
    rw [hc]
    norm_num [mkCell]
  exact ⟨soil_resources_nonneg.1 plantCentered soilOne 1 1 0 nuZero cuEmpty 3 hsoil,
    soil_resources_nonneg.2 1 1 3 [plantCentered] soilOne 2 hsoil⟩

/-! ### C9: starvation under zero light -/

theorem mem_intRange (a b x : ℤ) (h1 : a ≤ x) (h2 : x ≤ b) : x ∈ intRange a b := by
  have hmem : ((x - a).toNat : ℕ) ∈ List.range ((b + 1 - a).toNat) := by
    rw [List.mem_range]; omega
  refine List.mem_map.mpr ⟨(x - a).toNat, hmem, ?_⟩
  simp only [Int.ofNat_eq_coe]
  omega

theorem zero_mem_flatMap_intRange (m M m2 M2 : ℤ) (hm : m ≤ 0) (hM : 0 ≤ M)
    (hm2 : m2 ≤ 0) (hM2 : 0 ≤ M2) :
    (0:ℕ) ∈ (intRange m M).flatMap (fun x => (intRange m2 M2).filterMap (fun z =>
      if 0 ≤ x ∧ x < (1:ℤ) ∧ 0 ≤ z ∧ z < 1 then some (z * 1 + x).toNat else none)) := by
  rw [List.mem_flatMap]
  refine ⟨0, mem_intRange m M 0 hm hM, ?_⟩
  rw [List.mem_filterMap]
  exact ⟨0, mem_intRange m2 M2 0 hm2 hM2, by decide⟩

/-- A plant centered at the origin whose footprint covers the one-cell
grid scans cell 0. -/
theorem mem_occupied_centered (p : Plant) (hx : p.position.x = 0)
    (hz : p.position.z = 0) (hs : 1 ≤ p.size) :
    (0:ℕ) ∈ p.getOccupiedSoilIndices 1 1 := by
  have hlow : ∀ q : ℚ, q = 0 →
      safeFloorToInt ((q - p.size * (1/2) + ((1:ℤ):ℚ) * (1/2)) / 1) ≤ 0 := by
    intro q hq0
    unfold safeFloorToInt
    have hle : (q - p.size * (1/2) + ((1:ℤ):ℚ) * (1/2)) / 1 ≤ 0 := by
      rw [hq0]; push_cast; linarith
    calc ⌊(q - p.size * (1/2) + ((1:ℤ):ℚ) * (1/2)) / 1⌋ ≤ ⌊(0:ℚ)⌋ :=
          Int.floor_le_floor hle
      _ = 0 := Int.floor_zero
  have hhigh : ∀ q : ℚ, q = 0 →
      0 ≤ safeFloorToInt ((q + p.size * (1/2) + ((1:ℤ):ℚ) * (1/2)) / 1) := by
    intro q hq0
    unfold safeFloorToInt
    rw [Int.le_floor]
    rw [hq0]; push_cast; linarith
  simp only [Plant.getOccupiedSoilIndices]
  exact zero_mem_flatMap_intRange _ _ _ _
    (hlow p.position.x hx) (hhigh p.position.x hx)
    (hlow p.position.z hz) (hhigh p.position.z hz)

theorem overlapAreaXZ_centered (ah bh : ℚ) (hb : 0 ≤ bh) (hab : bh ≤ ah) :
    overlapAreaXZ 0 0 ah 0 0 bh = (2*bh) * (2*bh) := by
  simp only [overlapAreaXZ]
  have e1 : min (0 + ah) (0 + bh) = bh := by
    simp only [zero_add]; exact min_eq_right hab
  have e2 : max (0 - ah) (0 - bh) = -bh := by
    simp only [zero_sub]; exact max_eq_right (by linarith)
  rw [e1, e2]
  have e3 : bh - -bh = 2*bh := by ring
  rw [e3, max_eq_right (by linarith)]

/-- The origin cell of the one-cell grid is fully covered by a centered
plant of size at least 1. -/
theorem frac_centered (p : Plant) (cell : SoilCell) (hx : p.position.x = 0)
    (hz : p.position.z = 0) (hs : 1 ≤ p.size) (hcx : cell.position.x = 0)
    (hcz : cell.position.y = 0) :
    p.overlapFractionWithCell cell 1 1 = 1 := by
  simp only [Plant.overlapFractionWithCell]
  have hcx2 : cell.position.x - ((1:ℤ):ℚ) * (1/2) + 1 * (1/2) = 0 := by
    rw [hcx]; push_cast; ring
  have hcz2 : cell.position.y - ((1:ℤ):ℚ) * (1/2) + 1 * (1/2) = 0 := by
    rw [hcz]; push_cast; ring
  rw [hcx2, hcz2, hx, hz]
  rw [overlapAreaXZ_centered (p.size * (1/2)) (1 * (1/2)) (by norm_num) (by linarith)]
  norm_num [clampf]

theorem scanStep_total_mono (p : Plant) (soil : List SoilCell) (gridSize : ℤ)
    (cellSize : ℚ) (acc : OverlapScan) (idx : ℕ) :
    acc.totalOverlap ≤ (scanStep p soil gridSize cellSize acc idx).totalOverlap := by
  simp only [scanStep]
  split_ifs with hf
  · simp only
    linarith
  · exact le_refl _

theorem scan_foldl_total_mono (p : Plant) (soil : List SoilCell) (gridSize : ℤ)
    (cellSize : ℚ) (l : List ℕ) :
    ∀ acc : OverlapScan,
      acc.totalOverlap ≤ (l.foldl (scanStep p soil gridSize cellSize) acc).totalOverlap := by
  induction l with
  | nil => intro acc; exact le_refl _
  | cons i t ih =>
    intro acc
    simp only [List.foldl_cons]
    exact le_trans (scanStep_total_mono p soil gridSize cellSize acc i) (ih _)

/-- The total overlap is positive as soon as one scanned index carries a
positive overlap fraction. -/
theorem scan_total_pos_of_mem (p : Plant) (soil : List SoilCell) (gridSize : ℤ)
    (cellSize : ℚ) (idx : ℕ) (hmem : idx ∈ p.getOccupiedSoilIndices gridSize cellSize)
    (hf : 0 < p.overlapFractionWithCell (soil.getD idx defaultCell) gridSize cellSize) :
    0 < (scanCells p soil gridSize cellSize).totalOverlap := by
  obtain ⟨l1, l2, hsplit⟩ := List.append_of_mem hmem
  unfold scanCells
  rw [hsplit, List.foldl_append, List.foldl_cons]
  have h2 : 0 < (scanStep p soil gridSize cellSize
      (l1.foldl (scanStep p soil gridSize cellSize) ⟨[], 0, 0, 0⟩) idx).totalOverlap := by
    have h1 : (0:ℚ) ≤ (l1.foldl (scanStep p soil gridSize cellSize)
        ⟨[], 0, 0, 0⟩).totalOverlap :=
      scan_foldl_total_mono p soil gridSize cellSize l1 ⟨[], 0, 0, 0⟩
    simp only [scanStep, if_pos hf]
    linarith
  exact lt_of_lt_of_le h2 (scan_foldl_total_mono p soil gridSize cellSize l2 _)

/-- One-cell soil whose cell sits at grid coordinates (0,0). -/
def CellAtOrigin (soil : List SoilCell) : Prop :=
  ∃ c : SoilCell, soil = [c] ∧ c.position.x = 0 ∧ c.position.y = 0

theorem depleteStep_cellAtOrigin (p : Plant) (t d : ℚ) (acc : DepleteAcc)
    (pr : ℕ × ℚ) (h : CellAtOrigin acc.soil) :
    CellAtOrigin (depleteStep p t d acc pr).soil := by
  obtain ⟨c, hsoil, hcx, hcz⟩ := h
  simp only [depleteStep, hsoil]
  rcases pr with ⟨idx, frac⟩
  cases idx with
  | zero =>
    exact ⟨{ c with
      water := max 0 (c.water - d * (frac / t) * p.adsorptionEfficiency * (1/1000)),
      nitrogen := max 0 (c.nitrogen - d * (frac / t) * p.adsorptionEfficiency * (1/1000)),
      phosphorus := max 0 (c.phosphorus - d * (frac / t) * p.adsorptionEfficiency * (1/1000)),
      potassium := max 0 (c.potassium - d * (frac / t) * p.adsorptionEfficiency * (1/1000)) },
      rfl, hcx, hcz⟩
  | succ n => exact ⟨c, by simp, hcx, hcz⟩

theorem deplete_foldl_cellAtOrigin (p : Plant) (t d : ℚ) (l : List (ℕ × ℚ)) :
    ∀ acc : DepleteAcc, CellAtOrigin acc.soil →
      CellAtOrigin ((l.foldl (depleteStep p t d) acc)).soil := by
  induction l with
  | nil => intro acc h; exact h
  | cons a tl ih =>
    intro acc h
    simp only [List.foldl_cons]
    exact ih _ (depleteStep_cellAtOrigin p t d acc a h)

/-- One frame of the starvation scenario: grow the single plant on the
one-cell grid with lightFactor = 0 and fresh accumulators. -/
def starveStep (HEIGHT_SCALE : ℚ) (st : Plant × List SoilCell) : Plant × List SoilCell :=
  ((grow st.1 st.2 1 1 0 nuZero cuEmpty HEIGHT_SCALE).plant,
   (grow st.1 st.2 1 1 0 nuZero cuEmpty HEIGHT_SCALE).soil)

/-- n frames of the starvation scenario. -/
def starveRun (HEIGHT_SCALE : ℚ) (st : Plant × List SoilCell) (n : ℕ) :
    Plant × List SoilCell :=
  (starveStep HEIGHT_SCALE)^[n] st

/-- Invariant of the starvation scenario: plant centered at the origin
of the one-cell grid, footprint covering the cell, the constructor's
baseMaintenance of 0.2, and health within [0,1]. -/
def StarveSetup (st : Plant × List SoilCell) : Prop :=
  st.1.position.x = 0 ∧ st.1.position.z = 0 ∧ 1 ≤ st.1.size ∧ 0 ≤ st.1.age ∧
  0 < st.1.maxAge ∧ st.1.baseMaintenance = 1/5 ∧ 0 ≤ st.1.maintenancePerSize ∧
  0 ≤ st.1.growthRate ∧ 0 ≤ st.1.health ∧ st.1.health ≤ 1 ∧ CellAtOrigin st.2

/-- With zero light the production term vanishes and maintenance is at
least baseMaintenance, so a full update lowers health by at least
baseMaintenance/1000 + 1/2000 = 7/10000 (before the floor at 0). -/
theorem starvation_health_step (p : Plant) (soil : List SoilCell) (gridSize : ℤ)
    (cellSize : ℚ) (nu : ℤ → ℤ → ℚ) (cu : ℤ → List (ℤ × ℚ × ℚ))
    (HEIGHT_SCALE : ℚ) (ha : p.alive = true)
    (h0 : (scanCells p soil gridSize cellSize).totalOverlap ≠ 0)
    (hb : p.baseMaintenance = 1/5) (hmps : 0 ≤ p.maintenancePerSize)
    (hsz : 0 ≤ p.size) (hage : 0 ≤ p.age) (hmax : 0 < p.maxAge) :
    (grow p soil gridSize cellSize 0 nu cu HEIGHT_SCALE).plant.health ≤
      max 0 (p.health - 7/10000) ∧
    (0 < p.health →
      (grow p soil gridSize cellSize 0 nu cu HEIGHT_SCALE).plant.health < p.health) ∧
    0 ≤ (grow p soil gridSize cellSize 0 nu cu HEIGHT_SCALE).plant.health := by
  rw [grow_of_main p soil gridSize cellSize 0 nu cu HEIGHT_SCALE ha h0]
  simp only [growPlantMain]
  have hprod : growProduction p (scanCells p soil gridSize cellSize) 0 = 0 := by
    unfold growProduction; ring
  have hmain : 1/5 ≤ growMaintenance p := by
    unfold growMaintenance
    rw [hb]
    have h1 : 0 ≤ p.maintenancePerSize * p.size := mul_nonneg hmps hsz
    have h2 : 0 ≤ p.age / p.maxAge * (1/5) :=
      mul_nonneg (div_nonneg hage hmax.le) (by norm_num)
    linarith
  have hne : growNetEnergy p (scanCells p soil gridSize cellSize) 0 =
      -growMaintenance p := by
    unfold growNetEnergy; rw [hprod]; ring
  have hX : p.health +
      growNetEnergy p (scanCells p soil gridSize cellSize) 0 * (1/1000) - 1/2000 ≤
      p.health - 7/10000 := by
    rw [hne]; linarith
  unfold growHealth clampf
  refine ⟨?_, ?_, le_max_left _ _⟩
  · exact max_le_max (le_refl 0) (le_trans (min_le_left _ _) hX)
  · intro hh
    exact max_lt hh (lt_of_le_of_lt (min_le_left _ _) (by linarith))

/-- The starvation step preserves the setup invariant, is the identity
on a dead plant, and on a live plant lowers health and recomputes the
alive flag from the new health and age. -/
theorem starve_step_spec (HEIGHT_SCALE : ℚ) (st : Plant × List SoilCell)
    (h : StarveSetup st) :
    StarveSetup (starveStep HEIGHT_SCALE st) ∧
    (st.1.alive = false → starveStep HEIGHT_SCALE st = st) ∧
    (st.1.alive = true →
      (starveStep HEIGHT_SCALE st).1.health ≤ max 0 (st.1.health - 7/10000) ∧
      (0 < st.1.health → (starveStep HEIGHT_SCALE st).1.health < st.1.health) ∧
      ((starveStep HEIGHT_SCALE st).1.alive = true →
        0 < (starveStep HEIGHT_SCALE st).1.health)) := by
  obtain ⟨hx, hz, hsz, hage, hmax, hb, hmps, hgr, hh0, hh1, hcell⟩ := h
  obtain ⟨c, hsoil, hcx, hcz⟩ := hcell
  rcases Bool.eq_false_or_eq_true st.1.alive with ha | hd
  case inr =>
    have hid : starveStep HEIGHT_SCALE st = st := by
      unfold starveStep
      rw [grow_of_dead st.1 st.2 1 1 0 nuZero cuEmpty HEIGHT_SCALE hd]
    refine ⟨?_, fun _ => hid, fun hcontra => ?_⟩
    · rw [hid]
      exact ⟨hx, hz, hsz, hage, hmax, hb, hmps, hgr, hh0, hh1, c, hsoil, hcx, hcz⟩
    · rw [hcontra] at hd
      exact absurd hd (by simp)
  case inl =>
    have h0 : (scanCells st.1 st.2 1 1).totalOverlap ≠ 0 := by
      have hfrac : 0 < st.1.overlapFractionWithCell (st.2.getD 0 defaultCell) 1 1 := by
        rw [hsoil]
        show 0 < st.1.overlapFractionWithCell c 1 1
        rw [frac_centered st.1 c hx hz hsz hcx hcz]
        norm_num
      exact (scan_total_pos_of_mem st.1 st.2 1 1 0
        (mem_occupied_centered st.1 hx hz hsz) hfrac).ne'
    have hgrow := grow_of_main st.1 st.2 1 1 0 nuZero cuEmpty HEIGHT_SCALE ha h0
    have hhealth := starvation_health_step st.1 st.2 1 1 nuZero cuEmpty HEIGHT_SCALE
      ha h0 hb hmps (by linarith) hage hmax
    refine ⟨?_, fun hcontra => by simp [ha] at hcontra,
      fun _ => ⟨hhealth.1, hhealth.2.1, ?_⟩⟩
    · unfold starveStep
      rw [hgrow]
      simp only [growPlantMain]
      refine ⟨hx, hz, ?_, by linarith, hmax, hb, hmps, hgr, ?_, ?_, ?_⟩
      · unfold growSize
        have hd2 : 0 ≤ growDelta st.1 (scanCells st.1 st.2 1 1) 0 := by
          unfold growDelta
          split_ifs <;> positivity
        calc (1:ℚ) ≤ st.1.size := hsz
          _ ≤ st.1.size + growDelta st.1 (scanCells st.1 st.2 1 1) 0 := by linarith
          _ ≤ max (1/5) (st.1.size + growDelta st.1 (scanCells st.1 st.2 1 1) 0) :=
              le_max_right _ _
      · unfold growHealth clampf
        exact le_max_left _ _
      · unfold growHealth clampf
        exact max_le (by norm_num) (min_le_right _ _)
      · exact deplete_foldl_cellAtOrigin _ _ _ _ _ ⟨c, hsoil, hcx, hcz⟩
    · intro halive2
      unfold starveStep at halive2 ⊢
      rw [hgrow] at halive2 ⊢
      simp only [growPlantMain] at halive2 ⊢
      exact (of_decide_eq_true halive2).1

/-- Along a starvation run the setup invariant holds at every frame and,
while the plant is alive, health has dropped by at least 7/10000 per
elapsed frame. -/
theorem starve_run_spec (HEIGHT_SCALE : ℚ) (st : Plant × List SoilCell)
    (h : StarveSetup st) (n : ℕ) :
    StarveSetup (starveRun HEIGHT_SCALE st n) ∧
    ((starveRun HEIGHT_SCALE st n).1.alive = true →
      (starveRun HEIGHT_SCALE st n).1.health ≤ st.1.health - n * (7/10000)) := by
  induction n with
  | zero =>
    refine ⟨h, fun _ => ?_⟩
    simp [starveRun]
  | succ k ih =>
    have hsucc : starveRun HEIGHT_SCALE st (k+1) =
        starveStep HEIGHT_SCALE (starveRun HEIGHT_SCALE st k) := by
      unfold starveRun
      rw [Function.iterate_succ_apply']
    obtain ⟨hsk, hhk⟩ := ih
    have hstep := starve_step_spec HEIGHT_SCALE _ hsk
    refine ⟨by rw [hsucc]; exact hstep.1, ?_⟩
    intro halive
    rcases Bool.eq_false_or_eq_true (starveRun HEIGHT_SCALE st k).1.alive with hak | hdk
    · have h3 := hstep.2.2 hak
      have hle : (starveRun HEIGHT_SCALE st (k+1)).1.health ≤
          max 0 ((starveRun HEIGHT_SCALE st k).1.health - 7/10000) := by
        rw [hsucc]; exact h3.1
      have hpos : 0 < (starveRun HEIGHT_SCALE st (k+1)).1.health := by
        rw [hsucc]
        exact h3.2.2 (by rw [← hsucc]; exact halive)
      have hk_le := hhk hak
      have hcase : 0 < (starveRun HEIGHT_SCALE st k).1.health - 7/10000 := by
        by_contra hle0
        push_neg at hle0
        rw [max_eq_left hle0] at hle
        linarith
      rw [max_eq_right hcase.le] at hle
      push_cast
      linarith
    · have hid := hstep.2.1 hdk
      rw [hsucc, hid] at halive
      rw [halive] at hdk
      exact absurd hdk (by simp)

/-- C9: with lightFactor = 0, production vanishes, so netEnergy equals
minus the maintenance, which is at least baseMaintenance = 0.2; every
full update with nonzero overlap subtracts at least
baseMaintenance/1000 + 1/2000 = 7/10000 from health (clamped at 0) and
strictly decreases positive health; consequently, in the starvation
scenario (centered plant on a one-cell grid, repeatedly grown with zero
light), the plant's alive flag is false after at most 1429 frames,
since health starts at most 1. -/
theorem starvation_drives_death :
    (∀ (p : Plant) (soil : List SoilCell) (gridSize : ℤ) (cellSize : ℚ)
       (nu : ℤ → ℤ → ℚ) (cu : ℤ → List (ℤ × ℚ × ℚ)) (HEIGHT_SCALE : ℚ),
       p.alive = true → (scanCells p soil gridSize cellSize).totalOverlap ≠ 0 →
       p.baseMaintenance = 1/5 → 0 ≤ p.maintenancePerSize → 0 ≤ p.size →
       0 ≤ p.age → 0 < p.maxAge →
       ((grow p soil gridSize cellSize 0 nu cu HEIGHT_SCALE).plant.health ≤
          max 0 (p.health - 7/10000) ∧
        (0 < p.health →
          (grow p soil gridSize cellSize 0 nu cu HEIGHT_SCALE).plant.health < p.health))) ∧
    (∀ (HEIGHT_SCALE : ℚ) (st : Plant × List SoilCell), StarveSetup st →
      (∀ n : ℕ, (starveRun HEIGHT_SCALE st n).1.alive = true →
        0 < (starveRun HEIGHT_SCALE st n).1.health →
        (starveRun HEIGHT_SCALE st (n+1)).1.health <
          (starveRun HEIGHT_SCALE st n).1.health) ∧
      (starveRun HEIGHT_SCALE st 1429).1.alive = false) := by
  constructor
  · intro p soil gridSize cellSize nu cu HEIGHT_SCALE ha h0 hb hmps hsz hage hmax
    have h := starvation_health_step p soil gridSize cellSize nu cu HEIGHT_SCALE
      ha h0 hb hmps hsz hage hmax
    exact ⟨h.1, h.2.1⟩
  · intro HEIGHT_SCALE st hsetup
    constructor
    · intro n halive hpos
      have hrs := starve_run_spec HEIGHT_SCALE st hsetup n
      have hstep := starve_step_spec HEIGHT_SCALE _ hrs.1
      have hsucc : starveRun HEIGHT_SCALE st (n+1) =
          starveStep HEIGHT_SCALE (starveRun HEIGHT_SCALE st n) := by
        unfold starveRun
        rw [Function.iterate_succ_apply']
      rw [hsucc]
      exact (hstep.2.2 halive).2.1 hpos
    · have hrs := starve_run_spec HEIGHT_SCALE st hsetup 1429
      rcases Bool.eq_false_or_eq_true (starveRun HEIGHT_SCALE st 1429).1.alive
        with hak | hdk
      · exfalso
        have h1 := hrs.2 hak
        obtain ⟨_, _, _, _, _, _, _, _, hh0r, _, _⟩ := hrs.1
        obtain ⟨_, _, _, _, _, _, _, _, _, hh1s, _⟩ := hsetup
        push_cast at h1
        linarith
      · exact hdk

/-- Witness for C9 at the centered plant on the one-cell grid. -/
theorem starvation_drives_death_witness :
    ((grow plantCentered soilOne 1 1 0 nuZero cuEmpty 3).plant.health ≤
       max 0 (plantCentered.health - 7/10000)) ∧
    (starveRun 3 (plantCentered, soilOne) 1429).1.alive = false := by
  have hsetup : StarveSetup (plantCentered, soilOne) := by
    refine ⟨rfl, rfl, ?_, ?_, ?_, rfl, ?_, ?_, ?_, ?_, mkCell 0 0, rfl, rfl, rfl⟩ <;>
      norm_num [plantCentered, mkPlant]
  have h0 : (scanCells plantCentered soilOne 1 1).totalOverlap ≠ 0 := by
    rw [scan_plantCentered_total]; norm_num
  exact ⟨(starvation_drives_death.1 plantCentered soilOne 1 1 nuZero cuEmpty 3 rfl h0
      rfl (by norm_num [plantCentered, mkPlant]) (by norm_num [plantCentered, mkPlant])
      (by norm_num [plantCentered, mkPlant]) (by norm_num [plantCentered, mkPlant])).1,
    (starvation_drives_death.2 3 (plantCentered, soilOne) hsetup).2⟩

end EcoSphere
